import Mathlib

/-!
Shallow embedding of `src/cocotb/share/lib/embed/gpi_embed.cpp`: the bridge
that embeds a Python interpreter inside a simulator process.  The four
exported entry points (`_embed_init_python`, `_embed_sim_cleanup`,
`_embed_sim_init`, `_embed_sim_event`) are modelled as pure transitions on a
`BridgeState`, parameterised by the process environment (`Env`) and by the
outcomes of the external Python C-API calls (`PyWorld`).  Each transition also
emits a trace of `Action`s (log calls, token handoffs, GIL operations,
interpreter calls), so that properties about what was called, how often and
in what order can be stated directly.
-/

namespace GpiEmbed

/-- The GPI log levels named in the `logStrToLevel` map
(gpi_embed.cpp lines 120-123). -/
inductive GpiLogLevel
  | GPICritical
  | GPIError
  | GPIWarning
  | GPIInfo
  | GPIDebug
  | GPITrace
  deriving DecidableEq, Repr

/-- The three environment variables `gpi_embed.cpp` reads:
`PYTHON_BIN` (line 75), `COCOTB_LOG_LEVEL` (line 118), `COCOTB_ATTACH`
(line 205).  `none` models an unset variable. -/
structure Env where
  PYTHON_BIN : Option String
  COCOTB_LOG_LEVEL : Option String
  COCOTB_ATTACH : Option String
  deriving DecidableEq, Repr

/-- Outcomes of the external Python C-API calls the bridge makes; `true`
means the call succeeds (returns non-NULL / non-exception status).  One
execution of the bridge is run against one such world.
  * `decodeLocaleOk` — `Py_DecodeLocale` on the `PYTHON_BIN` value (line 83)
  * `pathFits` — the decoded path fits `PATH_MAX` (lines 93-94)
  * `setArgvOk` — `PyConfig_SetArgv` (line 152)
  * `initOk` — `Py_InitializeFromConfig` (line 165)
  * `sysExecCheckOk` — the post-boot `sys.executable` self-check succeeds and
    matches (lines 187-197; its three failure modes are collapsed into one flag
    since all are log-only)
  * `importEntryOk` — `PyImport_ImportModule("pygpi.entry")` (line 270)
  * `loadEntryOk` — `PyObject_CallMethod(..., "load_entry", NULL)` (line 280)
  * `parseTupleOk` — `PyArg_ParseTuple(entry_info_tuple, "OO", ...)` (line 291)
  * `logFuncOk` — `PyObject_GetAttrString(entry_module, "_log_from_c")` (line 300)
  * `filterFuncOk` — `PyObject_GetAttrString(entry_module, "_filter_from_c")` (line 309)
  * `simEventOk` — `PyObject_GetAttrString(entry_module, "_sim_event")` (line 320)
  * `listNewOk` — `PyList_New(argc)` (line 330)
  * `decodeArgsOk` — every `PyUnicode_DecodeLocale(_argv[i], "surrogateescape")`
    in the loop at lines 337-348 (can only fail with MemoryError)
  * `entryCallOk` — `PyObject_CallFunctionObjArgs(entry_point, argv_list, NULL)`
    (line 351)
  * `eventCallOk` — `PyObject_CallFunction(pEventFn, "s", msg)` (line 376) -/
structure PyWorld where
  decodeLocaleOk : Bool
  pathFits : Bool
  setArgvOk : Bool
  initOk : Bool
  sysExecCheckOk : Bool
  importEntryOk : Bool
  loadEntryOk : Bool
  parseTupleOk : Bool
  logFuncOk : Bool
  filterFuncOk : Bool
  simEventOk : Bool
  listNewOk : Bool
  decodeArgsOk : Bool
  entryCallOk : Bool
  eventCallOk : Bool
  deriving DecidableEq, Repr

/-- Which of the two runtimes currently holds the right to execute:
`to_python()` hands it to the interpreter side, `to_simulator()` back to the
host kernel. -/
inductive Side
  | Simulator
  | Python
  deriving DecidableEq, Repr

/-- Observable actions of one bridge call, in program order. -/
inductive Action
  | logInfo (m : String)
  | logError (m : String)
  | setLogLevel (lv : GpiLogLevel)
  | toPython
  | toSimulator
  | gilEnsure
  | gilRelease
  | pyInitConfig
  | sysExecCheck
  | saveThread
  | sleepFor (n : Nat)
  | importEntryModule
  | callLoadEntry
  | parseEntryTuple
  | getLogFunc
  | getFilterFunc
  | loggerInit
  | getSimEvent
  | buildArgvList
  | decodeArgs
  | callEntry
  | callEventFn (m : String)
  | errPrint
  | decRefEventFn
  | loggerFinal
  | pyFinal
  deriving DecidableEq, Repr

/-- The bridge's process-wide mutable state:
  * `gtstate` — the static `PyThreadState *gtstate` (line 57) is non-NULL
  * `pyInitialized` — what `Py_IsInitialized()` reports (set by
    `Py_InitializeFromConfig`, cleared by `Py_Finalize`)
  * `pEventFn` — the static `PyObject *pEventFn` (line 72) is non-NULL
  * `eventFnDecrefs` — how many times a non-NULL `pEventFn` has been
    passed to `Py_DecRef` in `_embed_sim_cleanup` (`Py_DecRef(NULL)` is a
    safe no-op and is not counted as a release)
  * `loggerInitialized` — `py_gpi_logger_initialize` has been called
  * `loggerFinalized` — `py_gpi_logger_finalize` has been called
  * `logLevel` — level installed via `py_gpi_logger_set_level`
  * `side` — holder of the execution token (`to_python`/`to_simulator`)
  * `gil` — depth of `PyGILState_Ensure` minus `PyGILState_Release` -/
structure BridgeState where
  gtstate : Bool
  pyInitialized : Bool
  pEventFn : Bool
  eventFnDecrefs : Nat
  loggerInitialized : Bool
  loggerFinalized : Bool
  logLevel : Option GpiLogLevel
  side : Side
  gil : Nat
  deriving DecidableEq, Repr

/-- The process state before any bridge call. -/
def initialState : BridgeState :=
  { gtstate := false
    pyInitialized := false
    pEventFn := false
    eventFnDecrefs := 0
    loggerInitialized := false
    loggerFinalized := false
    logLevel := none
    side := Side.Simulator
    gil := 0 }

/-- The `logStrToLevel` map of `_embed_init_python` (lines 120-123). -/
def logStrToLevel (s : String) : Option GpiLogLevel :=
  if s = "CRITICAL" then some GpiLogLevel.GPICritical
  else if s = "ERROR" then some GpiLogLevel.GPIError
  else if s = "WARNING" then some GpiLogLevel.GPIWarning
  else if s = "INFO" then some GpiLogLevel.GPIInfo
  else if s = "DEBUG" then some GpiLogLevel.GPIDebug
  else if s = "TRACE" then some GpiLogLevel.GPITrace
  else none

/-- Model of `get_interpreter_path` (lines 74-101): returns 0 and fills the path on
success, -1 otherwise.  When `PYTHON_BIN` is unset it logs an informational
note (not an error) and returns -1. -/
def get_interpreter_path (env : Env) (w : PyWorld) : Int × List Action :=
  match env.PYTHON_BIN with
  | none =>
      (-1, [Action.logInfo
        "Did not detect Python virtual environment. Using system-wide Python interpreter"])
  | some _ =>
      if !w.decodeLocaleOk then
        (-1, [Action.logError
                "Unable to set Python Program Name. Decoding error in Python executable path.",
              Action.logInfo "Python executable path"])
      else if !w.pathFits then
        (-1, [Action.logError
                "Unable to set Python Program Name. Path to interpreter too long",
              Action.logInfo "Python executable path"])
      else (0, [])

/-- Value of `UINT_MAX` on the target platform. -/
def UINT_MAX : Nat := 2 ^ 32 - 1

/-- Value of `ULONG_MAX` on the target platform (LP64). -/
def ULONG_MAX : Nat := 2 ^ 64 - 1

/-- Value of the leading decimal-digit run of `s` (0 when there is none),
as `strtoul(s, NULL, 10)` computes it before clamping. -/
def leadingDigitsVal (s : String) : Nat :=
  (s.data.takeWhile Char.isDigit).foldl (fun a c => 10 * a + (c.toNat - 48)) 0

/-- Model of `strtoul(s, NULL, 10)` on a string with no leading whitespace or sign:
the parsed value (clamped to `ULONG_MAX`) and whether `errno` was set to
`ERANGE`.  A string with no leading digits converts to 0 with `errno`
untouched (strtoul only sets `errno` on range overflow). -/
def strtoul10 (s : String) : Nat × Bool :=
  let v := leadingDigitsVal s
  if v > ULONG_MAX then (ULONG_MAX, true) else (v, false)

/-- The `COCOTB_ATTACH` block at the end of `_embed_init_python`
(lines 205-225).  On the unsigned `sleep_time`, the source's condition
`(errno != 0 && sleep_time == 0) || (sleep_time <= 0)` reduces to
`sleep_time == 0`, since `errno` is only set (to `ERANGE`, handled by the
previous branch) by `strtoul` and an unsigned value is `<= 0` exactly when
it is 0. -/
def attach_check (env : Env) : List Action :=
  match env.COCOTB_ATTACH with
  | none => []
  | some pause =>
      let r := strtoul10 pause
      if r.2 = true ∨ UINT_MAX ≤ r.1 then
        [Action.logError "COCOTB_ATTACH only needs to be set to ~30 seconds"]
      else if r.1 = 0 then
        [Action.logError "COCOTB_ATTACH must be set to an integer base 10 or omitted"]
      else
        [Action.logError "Waiting for seconds - attach to PID with your debugger",
         Action.sleepFor r.1]

/-- Whether `_embed_init_python` returned normally or died on the
`assert(!gtstate)` at line 116. -/
inductive InitOutcome
  | fatalAssert
  | returned
  deriving DecidableEq, Repr

/-- Model of `_embed_init_python` (lines 115-226).  Returns the outcome, the new
bridge state and the action trace.  The `PyConfig` plumbing (lines 146-178)
is collapsed into the `setArgvOk`/`initOk` world flags; the per-status
`err_msg`/`func` log refinements are collapsed into one `logError` each. -/
def _embed_init_python (env : Env) (w : PyWorld) (s : BridgeState) :
    InitOutcome × BridgeState × List Action :=
  if s.gtstate then (InitOutcome.fatalAssert, s, [])
  else
    let levelStep :
        BridgeState × List Action :=
      match env.COCOTB_LOG_LEVEL with
      | none => (s, [])
      | some lv =>
          match logStrToLevel lv with
          | some l => ({ s with logLevel := some l }, [Action.setLogLevel l])
          | none => (s, [Action.logError "Invalid log level"])
    let s1 := { levelStep.1 with side := Side.Python }
    let tr1 := levelStep.2 ++ [Action.toPython]
    let pathStep := get_interpreter_path env w
    if pathStep.1 ≠ 0 then
      (InitOutcome.returned, s1, tr1 ++ pathStep.2)
    else
      let tr2 := tr1 ++ pathStep.2 ++ [Action.logInfo "Using Python interpreter at"]
      if !w.setArgvOk then
        (InitOutcome.returned, s1,
         tr2 ++ [Action.logError "Failed to set ARGV during the Python initialization"])
      else if !w.initOk then
        (InitOutcome.returned, s1,
         tr2 ++ [Action.logError "Failed to initialize Python"])
      else
        let s2 := { s1 with pyInitialized := true }
        let tr3 := tr2 ++ [Action.pyInitConfig, Action.sysExecCheck] ++
          (if w.sysExecCheckOk then [] else [Action.logError "sys.executable check failed"])
        let s3 := { s2 with gtstate := true, side := Side.Simulator }
        (InitOutcome.returned, s3,
         tr3 ++ [Action.saveThread, Action.toSimulator] ++ attach_check env)

/-- Model of `_embed_sim_cleanup` (lines 241-254).  The whole body is guarded by
`Py_IsInitialized()`.  `Py_DecRef(pEventFn)` releases the reference only
when `pEventFn` is non-NULL (`Py_DecRef(NULL)` is a safe no-op), and
`pEventFn` is then set to NULL; `Py_Finalize` tears the runtime down, so
`Py_IsInitialized()` becomes false and the GIL bookkeeping is gone. -/
def _embed_sim_cleanup (s : BridgeState) : BridgeState × List Action :=
  if s.pyInitialized then
    ({ s with
        pEventFn := false
        eventFnDecrefs := s.eventFnDecrefs + (if s.pEventFn then 1 else 0)
        loggerFinalized := true
        pyInitialized := false
        side := Side.Simulator
        gil := 0 },
     [Action.toPython, Action.gilEnsure] ++
       (if s.pEventFn then [Action.decRefEventFn] else []) ++
       [Action.loggerFinal, Action.pyFinal, Action.toSimulator])
  else (s, [])

/-- The deferred scope-exit actions of `_embed_sim_init` once both
`DEFER(PyGILState_Release(gstate))` (line 265) and `DEFER(to_simulator())`
(line 268) are registered: destructors run in reverse registration order, so
`to_simulator()` runs, then the GIL is released.  The `DEFER`red
`Py_DECREF`s of the local references (entry module, tuple, log/filter
functions, argv list) touch no bridge-visible state and are not traced. -/
def simInitDefers (s : BridgeState) : BridgeState × List Action :=
  ({ s with side := Side.Simulator, gil := s.gil - 1 },
   [Action.toSimulator, Action.gilRelease])

/-- Model of `_embed_sim_init` (lines 256-362).  `arg_c` is the host argument count;
the argument strings only flow into the decode loop, whose outcome is the
`decodeArgsOk` world flag (the decode scheme itself is modelled separately
as `marshalArgv`).  Every early `return -1` runs the deferred releases. -/
def _embed_sim_init (w : PyWorld) (s : BridgeState) :
    Int × BridgeState × List Action :=
  if s.pEventFn then (0, s, [])
  else
    let s1 := { s with gil := s.gil + 1, side := Side.Python }
    let tr := [Action.gilEnsure, Action.toPython]
    if !w.importEntryOk then
      let d := simInitDefers s1
      (-1, d.1, tr ++ [Action.importEntryModule, Action.errPrint] ++ d.2)
    else
      let tr := tr ++ [Action.importEntryModule]
      if !w.loadEntryOk then
        let d := simInitDefers s1
        (-1, d.1, tr ++ [Action.callLoadEntry, Action.errPrint] ++ d.2)
      else
        let tr := tr ++ [Action.callLoadEntry]
        if !w.parseTupleOk then
          let d := simInitDefers s1
          (-1, d.1, tr ++ [Action.parseEntryTuple, Action.errPrint] ++ d.2)
        else
          let tr := tr ++ [Action.parseEntryTuple]
          if !w.logFuncOk then
            let d := simInitDefers s1
            (-1, d.1, tr ++ [Action.getLogFunc, Action.errPrint] ++ d.2)
          else
            let tr := tr ++ [Action.getLogFunc]
            if !w.filterFuncOk then
              let d := simInitDefers s1
              (-1, d.1, tr ++ [Action.getFilterFunc, Action.errPrint] ++ d.2)
            else
              let tr := tr ++ [Action.getFilterFunc]
              let s2 := { s1 with loggerInitialized := true }
              let tr := tr ++ [Action.loggerInit]
              if !w.simEventOk then
                let d := simInitDefers s2
                (-1, d.1, tr ++ [Action.getSimEvent, Action.errPrint] ++ d.2)
              else
                let s3 := { s2 with pEventFn := true }
                let tr := tr ++ [Action.getSimEvent]
                if !w.listNewOk then
                  let d := simInitDefers s3
                  (-1, d.1, tr ++ [Action.buildArgvList, Action.errPrint] ++ d.2)
                else
                  let tr := tr ++ [Action.buildArgvList]
                  if !w.decodeArgsOk then
                    let d := simInitDefers s3
                    (-1, d.1, tr ++ [Action.decodeArgs, Action.errPrint] ++ d.2)
                  else
                    let tr := tr ++ [Action.decodeArgs]
                    if !w.entryCallOk then
                      let d := simInitDefers s3
                      (-1, d.1, tr ++ [Action.callEntry, Action.errPrint] ++ d.2)
                    else
                      let d := simInitDefers s3
                      (0, d.1, tr ++ [Action.callEntry] ++ d.2)

/-- Model of `_embed_sim_event` (lines 364-385).  A no-op when `pEventFn` is NULL;
otherwise hands control to the interpreter, substitutes the fixed default
text when `msg` is NULL, calls the event hook once, logs (non-fatally) if
the call failed, and hands control back. -/
def _embed_sim_event (msg : Option String) (w : PyWorld) (s : BridgeState) :
    BridgeState × List Action :=
  if s.pEventFn then
    let m := match msg with
      | none => "No message provided"
      | some t => t
    ({ s with side := Side.Simulator, gil := s.gil + 1 - 1 },
     [Action.toPython, Action.gilEnsure, Action.callEventFn m] ++
       (if w.eventCallOk then []
        else [Action.errPrint, Action.logError "Passing event to upper layer failed"]) ++
       [Action.gilRelease, Action.toSimulator])
  else (s, [])

/-- How many times action `a` occurs in trace `tr`. -/
def countAct (a : Action) : List Action → Nat
  | [] => 0
  | b :: tr => (if b = a then 1 else 0) + countAct a tr

@[simp] theorem countAct_nil (a : Action) : countAct a [] = 0 := rfl

@[simp] theorem countAct_cons (a b : Action) (tr : List Action) :
    countAct a (b :: tr) = (if b = a then 1 else 0) + countAct a tr := rfl

@[simp] theorem countAct_append (a : Action) (t1 t2 : List Action) :
    countAct a (t1 ++ t2) = countAct a t1 + countAct a t2 := by
  induction t1 with
  | nil => simp
  | cons b t ih => simp [ih, Nat.add_assoc]

/-- A trace in which every handoff to the interpreter is matched by a
handoff back, and every GIL acquisition by a release. -/
def tokenBalanced (tr : List Action) : Prop :=
  countAct Action.toPython tr = countAct Action.toSimulator tr ∧
  countAct Action.gilEnsure tr = countAct Action.gilRelease tr

instance (tr : List Action) : Decidable (tokenBalanced tr) := by
  unfold tokenBalanced; infer_instance

/-- Modelled from the spec: `PyUnicode_DecodeLocale(bytes, "surrogateescape")`
as used at line 340 — the decoder itself lives in the external interpreter
runtime, not in this repository.  Per the spec's "reversible escaping
scheme" (PEP 383), in an ASCII locale a byte below 0x80 decodes to its own
code point and an undecodable byte `b` is escaped to the lone surrogate
`0xDC00 + b` rather than dropped or substituted. -/
def decodeLocaleSE (bs : List Nat) : List Nat :=
  bs.map fun b => if b < 0x80 then b else 0xDC00 + b

/-- Modelled from the spec: the matching locale encode with
`surrogateescape` (the inverse direction of the same external codec as
`decodeLocaleSE`) — a lone surrogate in `0xDC80..0xDCFF` is turned back into
the original byte `c - 0xDC00`; any other code point encodes to itself. -/
def encodeLocaleSE (cs : List Nat) : List Nat :=
  cs.map fun c => if 0xDC80 ≤ c ∧ c ≤ 0xDCFF then c - 0xDC00 else c

/-- The argv marshaling loop of `_embed_sim_init` (lines 337-348): each host
argument byte string is decoded with the surrogateescape scheme. -/
def marshalArgv (args : List (List Nat)) : List (List Nat) :=
  args.map decodeLocaleSE

/-- A world in which every external Python C-API call succeeds. -/
def allOkWorld : PyWorld :=
  { decodeLocaleOk := true
    pathFits := true
    setArgvOk := true
    initOk := true
    sysExecCheckOk := true
    importEntryOk := true
    loadEntryOk := true
    parseTupleOk := true
    logFuncOk := true
    filterFuncOk := true
    simEventOk := true
    listNewOk := true
    decodeArgsOk := true
    entryCallOk := true
    eventCallOk := true }

/-- One of the four interpreter-side symbols `_embed_sim_init` must resolve:
the main entry (via `load_entry`), and the `_log_from_c`, `_filter_from_c`
and `_sim_event` attributes of the entry module. -/
inductive MissingSym
  | mainEntry
  | logHook
  | filterHook
  | eventHook
  deriving DecidableEq, Repr

/-- The world `w` fails to resolve exactly the given symbol: the entry
module itself imports fine, every resolution step before the failing one
succeeds, and only the named lookup fails.  (The main entry is produced by
`load_entry` together with the entry module, so its failure is the failure
of that call.) -/
def missingOnly (w : PyWorld) : MissingSym → Prop
  | MissingSym.mainEntry => w.importEntryOk = true ∧ w.loadEntryOk = false
  | MissingSym.logHook =>
      w.importEntryOk = true ∧ w.loadEntryOk = true ∧ w.parseTupleOk = true ∧
      w.logFuncOk = false
  | MissingSym.filterHook =>
      w.importEntryOk = true ∧ w.loadEntryOk = true ∧ w.parseTupleOk = true ∧
      w.logFuncOk = true ∧ w.filterFuncOk = false
  | MissingSym.eventHook =>
      w.importEntryOk = true ∧ w.loadEntryOk = true ∧ w.parseTupleOk = true ∧
      w.logFuncOk = true ∧ w.filterFuncOk = true ∧ w.simEventOk = false


/-- The range flag of `strtoul10` is set only when it clamps to `ULONG_MAX`. -/
theorem strtoul10_range (a : String) :
    (strtoul10 a).2 = false ∨ (strtoul10 a).1 = ULONG_MAX := by
  unfold strtoul10
  by_cases h : leadingDigitsVal a > ULONG_MAX <;> simp [h]

/-- Branch-independent facts about `_embed_sim_init` when the already-started
guard does not fire: every path, the early error returns included, hands the
execution token back to the simulator, restores the GIL depth, balances the
handoffs in its trace, and attempts the entry-module import. -/
theorem sim_init_shape (w : PyWorld) (t : BridgeState) (h1 : t.pEventFn = false) :
    (_embed_sim_init w t).2.1.side = Side.Simulator ∧
    (_embed_sim_init w t).2.1.gil = t.gil ∧
    tokenBalanced (_embed_sim_init w t).2.2 ∧
    Action.importEntryModule ∈ (_embed_sim_init w t).2.2 ∧
    (_embed_sim_init w t).2.2 ≠ [] := by
  unfold _embed_sim_init
  rw [if_neg (by simp [h1])]
  simp only [simInitDefers, Bool.not_eq_true']
  by_cases k1 : w.importEntryOk = false
  · rw [if_pos k1]; simp [tokenBalanced]
  rw [if_neg k1]
  by_cases k2 : w.loadEntryOk = false
  · rw [if_pos k2]; simp [tokenBalanced]
  rw [if_neg k2]
  by_cases k3 : w.parseTupleOk = false
  · rw [if_pos k3]; simp [tokenBalanced]
  rw [if_neg k3]
  by_cases k4 : w.logFuncOk = false
  · rw [if_pos k4]; simp [tokenBalanced]
  rw [if_neg k4]
  by_cases k5 : w.filterFuncOk = false
  · rw [if_pos k5]; simp [tokenBalanced]
  rw [if_neg k5]
  by_cases k6 : w.simEventOk = false
  · rw [if_pos k6]; simp [tokenBalanced]
  rw [if_neg k6]
  by_cases k7 : w.listNewOk = false
  · rw [if_pos k7]; simp [tokenBalanced]
  rw [if_neg k7]
  by_cases k8 : w.decodeArgsOk = false
  · rw [if_pos k8]; simp [tokenBalanced]
  rw [if_neg k8]
  by_cases k9 : w.entryCallOk = false
  · rw [if_pos k9]; simp [tokenBalanced]
  rw [if_neg k9]
  simp [tokenBalanced]

/-- Branch-independent facts about `_embed_sim_event`: the trace balances its
handoffs, the simulator ends up holding the token, and the GIL depth is
restored. -/
theorem sim_event_shape (msg : Option String) (w : PyWorld) (t : BridgeState) :
    tokenBalanced (_embed_sim_event msg w t).2 ∧
    (t.side = Side.Simulator → (_embed_sim_event msg w t).1.side = Side.Simulator) ∧
    (_embed_sim_event msg w t).1.gil = t.gil := by
  cases hp : t.pEventFn <;> cases hev : w.eventCallOk <;>
    rcases msg with _ | m <;> simp [_embed_sim_event, hp, hev, tokenBalanced]

/-- The state reached by a successful boot followed by a successful start:
runtime initialized, thread state saved, event hook retained. -/
def bootedState : BridgeState :=
  { initialState with gtstate := true, pyInitialized := true, pEventFn := true }

/-- Claim C1: with `PYTHON_BIN` unset boot logs the informational
"system-wide Python interpreter" note, but then `_embed_init_python` returns
at line 140 without ever initializing the runtime: `Py_IsInitialized` stays
false and no thread state is saved, so the interpreter is not Running.  (The
claim — and the code's own log message, together with the unused
`PYTHON_INTERPRETER_PATH` constant — say boot should proceed with a platform
default interpreter; the code instead skips the boot.) -/
theorem c1_boot_without_python_bin_skips_runtime :
    (_embed_init_python ⟨none, none, none⟩ allOkWorld initialState).1 =
      InitOutcome.returned ∧
    countAct (Action.logInfo
        "Did not detect Python virtual environment. Using system-wide Python interpreter")
      (_embed_init_python ⟨none, none, none⟩ allOkWorld initialState).2.2 = 1 ∧
    (_embed_init_python ⟨none, none, none⟩ allOkWorld initialState).2.1.pyInitialized = false ∧
    (_embed_init_python ⟨none, none, none⟩ allOkWorld initialState).2.1.gtstate = false := by
  decide

/-- Claim C2, counterexample: when the one missing symbol is the event hook
`_sim_event`, start does return -1 and retains no event hook, but
`py_gpi_logger_initialize` has already been called (line 318 precedes the
`_sim_event` lookup at line 320), refuting "none of the four callables has
been registered with the Logging Bridge". -/
theorem c2_counterexample :
    missingOnly { allOkWorld with simEventOk := false } MissingSym.eventHook ∧
    (_embed_sim_init { allOkWorld with simEventOk := false } initialState).1 = -1 ∧
    (_embed_sim_init { allOkWorld with simEventOk := false } initialState).2.1.pEventFn = false ∧
    (_embed_sim_init { allOkWorld with simEventOk := false } initialState).2.1.loggerInitialized
      = true ∧
    countAct Action.loggerInit
      (_embed_sim_init { allOkWorld with simEventOk := false } initialState).2.2 = 1 := by
  refine ⟨⟨rfl, rfl, rfl, rfl, rfl, rfl⟩, ?_⟩
  decide

/-- Claim C2 as amended: with exactly one of the four required symbols
missing, start returns the failure sentinel -1 and retains no event hook;
the Logging Bridge is untouched when the missing symbol is the main entry,
the log hook or the filter hook, but when the missing symbol is the event
hook the log and filter hooks have already been registered before the
failure. -/
theorem c2_single_missing_symbol (w : PyWorld) (s : BridgeState) (m : MissingSym)
    (hE : s.pEventFn = false) (hL : s.loggerInitialized = false)
    (hm : missingOnly w m) :
    (_embed_sim_init w s).1 = -1 ∧
    (_embed_sim_init w s).2.1.pEventFn = false ∧
    ((_embed_sim_init w s).2.1.loggerInitialized = true ↔ m = MissingSym.eventHook) := by
  rcases m with _ | _ | _ | _
  · obtain ⟨q1, q2⟩ := hm
    simp [_embed_sim_init, simInitDefers, hE, hL, q1, q2]
  · obtain ⟨q1, q2, q3, q4⟩ := hm
    simp [_embed_sim_init, simInitDefers, hE, hL, q1, q2, q3, q4]
  · obtain ⟨q1, q2, q3, q4, q5⟩ := hm
    simp [_embed_sim_init, simInitDefers, hE, hL, q1, q2, q3, q4, q5]
  · obtain ⟨q1, q2, q3, q4, q5, q6⟩ := hm
    simp [_embed_sim_init, simInitDefers, hE, hL, q1, q2, q3, q4, q5, q6]

theorem c2_single_missing_symbol_witness :
    (_embed_sim_init { allOkWorld with logFuncOk := false } initialState).1 = -1 ∧
    (_embed_sim_init { allOkWorld with logFuncOk := false } initialState).2.1.pEventFn = false ∧
    ((_embed_sim_init { allOkWorld with logFuncOk := false } initialState).2.1.loggerInitialized
        = true ↔ MissingSym.logHook = MissingSym.eventHook) :=
  c2_single_missing_symbol _ _ MissingSym.logHook rfl rfl ⟨rfl, rfl, rfl, rfl⟩

/-- Claim C3, counterexample: with resolution fully successful and only the
main-entry call failing, start returns -1 but `pEventFn` is retained (not
NULL), a second start takes the already-started path and immediately returns
0 with an empty trace, and a subsequent notify does forward the event. -/
theorem c3_counterexample :
    (_embed_sim_init { allOkWorld with entryCallOk := false } initialState).1 = -1 ∧
    (_embed_sim_init { allOkWorld with entryCallOk := false } initialState).2.1.pEventFn = true ∧
    (_embed_sim_init allOkWorld
      (_embed_sim_init { allOkWorld with entryCallOk := false } initialState).2.1).1 = 0 ∧
    (_embed_sim_init allOkWorld
      (_embed_sim_init { allOkWorld with entryCallOk := false } initialState).2.1).2.2 = [] ∧
    countAct (Action.callEventFn "e")
      (_embed_sim_event (some "e") allOkWorld
        (_embed_sim_init { allOkWorld with entryCallOk := false } initialState).2.1).2 = 1 := by
  decide

/-- Claim C3 as amended: when resolution succeeds and the single call to the
main entry fails, start returns the failure sentinel -1, but the resolved
event-hook reference is retained (`pEventFn` is left non-NULL, per the
comment at line 327); consequently a subsequent start takes the
already-started path and immediately returns 0, and a subsequent notify does
forward the event once. -/
theorem c3_entry_call_failure_keeps_binding (w w2 : PyWorld) (s : BridgeState) (msg : String)
    (q1 : w.importEntryOk = true) (q2 : w.loadEntryOk = true) (q3 : w.parseTupleOk = true)
    (q4 : w.logFuncOk = true) (q5 : w.filterFuncOk = true) (q6 : w.simEventOk = true)
    (q7 : w.listNewOk = true) (q8 : w.decodeArgsOk = true) (q9 : w.entryCallOk = false)
    (hE : s.pEventFn = false) :
    (_embed_sim_init w s).1 = -1 ∧
    (_embed_sim_init w s).2.1.pEventFn = true ∧
    _embed_sim_init w2 (_embed_sim_init w s).2.1 = (0, (_embed_sim_init w s).2.1, []) ∧
    countAct (Action.callEventFn msg)
      (_embed_sim_event (some msg) w2 (_embed_sim_init w s).2.1).2 = 1 := by
  have hset : (_embed_sim_init w s).2.1.pEventFn = true := by
    simp [_embed_sim_init, simInitDefers, hE, q1, q2, q3, q4, q5, q6, q7, q8, q9]
  refine ⟨?_, hset, ?_, ?_⟩
  · simp [_embed_sim_init, simInitDefers, hE, q1, q2, q3, q4, q5, q6, q7, q8, q9]
  · generalize (_embed_sim_init w s).2.1 = t at hset
    simp [_embed_sim_init, hset]
  · generalize (_embed_sim_init w s).2.1 = t at hset
    cases hev : w2.eventCallOk <;> simp [_embed_sim_event, hset, hev]

theorem c3_entry_call_failure_keeps_binding_witness :
    (_embed_sim_init { allOkWorld with entryCallOk := false } initialState).1 = -1 ∧
    (_embed_sim_init { allOkWorld with entryCallOk := false } initialState).2.1.pEventFn = true ∧
    _embed_sim_init allOkWorld
        (_embed_sim_init { allOkWorld with entryCallOk := false } initialState).2.1 =
      (0, (_embed_sim_init { allOkWorld with entryCallOk := false } initialState).2.1, []) ∧
    countAct (Action.callEventFn "sim_finish")
      (_embed_sim_event (some "sim_finish") allOkWorld
        (_embed_sim_init { allOkWorld with entryCallOk := false } initialState).2.1).2 = 1 :=
  c3_entry_call_failure_keeps_binding _ _ _ "sim_finish"
    rfl rfl rfl rfl rfl rfl rfl rfl rfl rfl

/-- Claim C4: after a successful boot (`Py_IsInitialized` true), one call to
`_embed_sim_cleanup` clears the event-hook reference, finalizes the runtime,
and releases the retained reference exactly as often as it was held (at most
once); a second call finds the runtime no longer initialized, skips its whole
body, and leaves the state unchanged. -/
theorem c4_cleanup_idempotent (s : BridgeState) (h : s.pyInitialized = true) :
    (_embed_sim_cleanup s).1.pEventFn = false ∧
    (_embed_sim_cleanup s).1.pyInitialized = false ∧
    (_embed_sim_cleanup s).1.eventFnDecrefs =
      s.eventFnDecrefs + (if s.pEventFn then 1 else 0) ∧
    _embed_sim_cleanup (_embed_sim_cleanup s).1 = ((_embed_sim_cleanup s).1, []) := by
  simp [_embed_sim_cleanup, h]

theorem c4_cleanup_idempotent_witness :
    bootedState.pyInitialized = true ∧
    ((_embed_sim_cleanup bootedState).1.pEventFn = false ∧
     (_embed_sim_cleanup bootedState).1.pyInitialized = false ∧
     (_embed_sim_cleanup bootedState).1.eventFnDecrefs =
       bootedState.eventFnDecrefs + (if bootedState.pEventFn then 1 else 0) ∧
     _embed_sim_cleanup (_embed_sim_cleanup bootedState).1 =
       ((_embed_sim_cleanup bootedState).1, [])) :=
  ⟨rfl, c4_cleanup_idempotent bootedState rfl⟩

/-- Claim C5: when a first boot ran to completion (the thread state was
saved into `gtstate`), a second call to `_embed_init_python` trips the
`assert(!gtstate)` at line 116 and terminates the process before doing
anything (its trace is empty) — it never returns normally. -/
theorem c5_second_boot_fatal (env1 env2 : Env) (w1 w2 : PyWorld) (s : BridgeState)
    (h : ((_embed_init_python env1 w1 s).2.1).gtstate = true) :
    (_embed_init_python env2 w2 ((_embed_init_python env1 w1 s).2.1)).1 =
      InitOutcome.fatalAssert ∧
    (_embed_init_python env2 w2 ((_embed_init_python env1 w1 s).2.1)).2.2 = [] := by
  generalize (_embed_init_python env1 w1 s).2.1 = t at h
  simp [_embed_init_python, h]

theorem c5_second_boot_fatal_witness :
    ((_embed_init_python ⟨some "/venv/bin/python", none, none⟩ allOkWorld
        initialState).2.1).gtstate = true ∧
    ((_embed_init_python ⟨some "/venv/bin/python", none, none⟩ allOkWorld
        ((_embed_init_python ⟨some "/venv/bin/python", none, none⟩ allOkWorld
          initialState).2.1)).1 = InitOutcome.fatalAssert ∧
     (_embed_init_python ⟨some "/venv/bin/python", none, none⟩ allOkWorld
        ((_embed_init_python ⟨some "/venv/bin/python", none, none⟩ allOkWorld
          initialState).2.1)).2.2 = []) :=
  ⟨by decide, c5_second_boot_fatal _ _ _ _ _ (by decide)⟩

/-- Claim C6: notify is a no-op (state unchanged, nothing called) when the
event hook was never resolved or has been cleared; and when the hook is held
and the message argument is absent, the hook is called exactly once, with the
fixed text "No message provided" and with no other text. -/
theorem c6_notify_guard_and_default_text (w : PyWorld) (s : BridgeState)
    (msg : Option String) :
    (s.pEventFn = false → _embed_sim_event msg w s = (s, [])) ∧
    (s.pEventFn = true →
      countAct (Action.callEventFn "No message provided") (_embed_sim_event none w s).2 = 1 ∧
      ∀ m, Action.callEventFn m ∈ (_embed_sim_event none w s).2 →
        m = "No message provided") := by
  constructor
  · intro h
    simp [_embed_sim_event, h]
  · intro h
    cases hev : w.eventCallOk <;> simp [_embed_sim_event, h, hev]

theorem c6_notify_guard_and_default_text_witness :
    (bootedState.pEventFn = false →
      _embed_sim_event none allOkWorld bootedState = (bootedState, [])) ∧
    (bootedState.pEventFn = true →
      countAct (Action.callEventFn "No message provided")
        (_embed_sim_event none allOkWorld bootedState).2 = 1 ∧
      ∀ m, Action.callEventFn m ∈ (_embed_sim_event none allOkWorld bootedState).2 →
        m = "No message provided") :=
  c6_notify_guard_and_default_text allOkWorld bootedState none

/-- Claim C7: in `_embed_sim_init` and `_embed_sim_event` every handoff to
the interpreter (`to_python` / `PyGILState_Ensure`) is matched in the trace
by the corresponding release on every exit path, and after either call the
simulator holds the execution token again with the GIL depth restored. -/
theorem c7_token_and_gil_balanced (w : PyWorld) (s : BridgeState) (msg : Option String)
    (hs : s.side = Side.Simulator) :
    tokenBalanced (_embed_sim_init w s).2.2 ∧
    (_embed_sim_init w s).2.1.side = Side.Simulator ∧
    (_embed_sim_init w s).2.1.gil = s.gil ∧
    tokenBalanced (_embed_sim_event msg w s).2 ∧
    (_embed_sim_event msg w s).1.side = Side.Simulator ∧
    (_embed_sim_event msg w s).1.gil = s.gil := by
  have he := sim_event_shape msg w s
  cases hp : s.pEventFn
  · have hi := sim_init_shape w s hp
    exact ⟨hi.2.2.1, hi.1, hi.2.1, he.1, he.2.1 hs, he.2.2⟩
  · refine ⟨?_, ?_, ?_, he.1, he.2.1 hs, he.2.2⟩ <;>
      simp [_embed_sim_init, hp, hs, tokenBalanced]

theorem c7_token_and_gil_balanced_witness :
    initialState.side = Side.Simulator ∧
    (tokenBalanced (_embed_sim_init allOkWorld initialState).2.2 ∧
     (_embed_sim_init allOkWorld initialState).2.1.side = Side.Simulator ∧
     (_embed_sim_init allOkWorld initialState).2.1.gil = initialState.gil ∧
     tokenBalanced (_embed_sim_event (some "sim_finish") allOkWorld initialState).2 ∧
     (_embed_sim_event (some "sim_finish") allOkWorld initialState).1.side = Side.Simulator ∧
     (_embed_sim_event (some "sim_finish") allOkWorld initialState).1.gil =
       initialState.gil) :=
  ⟨rfl, c7_token_and_gil_balanced allOkWorld initialState (some "sim_finish") rfl⟩

/-- Claim C8: when a boot that reaches the attach check finds
`COCOTB_ATTACH` set, a value parsing to 2 makes it call `sleep` with 2
exactly once, while a value parsing to 0 (the string "0", or a non-numeric
string, which `strtoul` converts to 0) logs the configuration error and
never calls `sleep`. -/
theorem c8_attach_wait (env : Env) (w : PyWorld) (s : BridgeState) (p a : String)
    (hg : s.gtstate = false) (hp : env.PYTHON_BIN = some p)
    (h1 : w.decodeLocaleOk = true) (h2 : w.pathFits = true)
    (h3 : w.setArgvOk = true) (h4 : w.initOk = true)
    (ha : env.COCOTB_ATTACH = some a) :
    ((strtoul10 a).1 = 2 →
      countAct (Action.sleepFor 2) (_embed_init_python env w s).2.2 = 1) ∧
    ((strtoul10 a).1 = 0 →
      (∀ n, countAct (Action.sleepFor n) (_embed_init_python env w s).2.2 = 0) ∧
      countAct
        (Action.logError "COCOTB_ATTACH must be set to an integer base 10 or omitted")
        (_embed_init_python env w s).2.2 = 1) := by
  constructor
  · intro hv
    have he : (strtoul10 a).2 = false := by
      rcases strtoul10_range a with he | hc
      · exact he
      · rw [hv] at hc
        simp [ULONG_MAX] at hc
    rcases hLL : env.COCOTB_LOG_LEVEL with _ | lv
    · cases hsys : w.sysExecCheckOk <;>
        simp [_embed_init_python, get_interpreter_path, attach_check, hg, hp, h1, h2, h3,
          h4, ha, hv, he, hLL, hsys, UINT_MAX]
    · rcases hll : logStrToLevel lv with _ | l <;> cases hsys : w.sysExecCheckOk <;>
        simp [_embed_init_python, get_interpreter_path, attach_check, hg, hp, h1, h2, h3,
          h4, ha, hv, he, hLL, hll, hsys, UINT_MAX]
  · intro hv
    have he : (strtoul10 a).2 = false := by
      rcases strtoul10_range a with he | hc
      · exact he
      · rw [hv] at hc
        simp [ULONG_MAX] at hc
    rcases hLL : env.COCOTB_LOG_LEVEL with _ | lv
    · cases hsys : w.sysExecCheckOk <;>
        simp [_embed_init_python, get_interpreter_path, attach_check, hg, hp, h1, h2, h3,
          h4, ha, hv, he, hLL, hsys, UINT_MAX]
    · rcases hll : logStrToLevel lv with _ | l <;> cases hsys : w.sysExecCheckOk <;>
        simp [_embed_init_python, get_interpreter_path, attach_check, hg, hp, h1, h2, h3,
          h4, ha, hv, he, hLL, hll, hsys, UINT_MAX]

theorem c8_attach_wait_witness :
    ((strtoul10 "2").1 = 2 →
      countAct (Action.sleepFor 2)
        (_embed_init_python ⟨some "/venv/bin/python", none, some "2"⟩ allOkWorld
          initialState).2.2 = 1) ∧
    ((strtoul10 "2").1 = 0 →
      (∀ n, countAct (Action.sleepFor n)
        (_embed_init_python ⟨some "/venv/bin/python", none, some "2"⟩ allOkWorld
          initialState).2.2 = 0) ∧
      countAct
        (Action.logError "COCOTB_ATTACH must be set to an integer base 10 or omitted")
        (_embed_init_python ⟨some "/venv/bin/python", none, some "2"⟩ allOkWorld
          initialState).2.2 = 1) :=
  c8_attach_wait _ allOkWorld initialState "/venv/bin/python" "2"
    rfl rfl rfl rfl rfl rfl rfl

/-- One argument string survives the decode/encode round trip: a byte below
0x80 decodes to itself, any other byte is escaped to a lone surrogate and
recovered exactly by the encoder. -/
theorem encode_decode_arg (bs : List Nat) (h : ∀ b ∈ bs, b < 256) :
    encodeLocaleSE (decodeLocaleSE bs) = bs := by
  unfold encodeLocaleSE decodeLocaleSE
  rw [List.map_map]
  conv_rhs => rw [← List.map_id bs]
  apply List.map_congr_left
  intro b hb
  have hb256 := h b hb
  simp only [Function.comp_apply, id_eq]
  split_ifs <;> omega

/-- Claim C9: marshaling the host argument vector with the surrogateescape
scheme is lossless — re-encoding every marshaled string recovers exactly the
original byte sequences, with no byte substituted, dropped or truncated. -/
theorem c9_marshal_roundtrip (args : List (List Nat))
    (h : ∀ arg ∈ args, ∀ b ∈ arg, b < 256) :
    (marshalArgv args).map encodeLocaleSE = args := by
  unfold marshalArgv
  rw [List.map_map]
  conv_rhs => rw [← List.map_id args]
  apply List.map_congr_left
  intro arg harg
  simp only [Function.comp_apply, id_eq]
  exact encode_decode_arg arg (h arg harg)

theorem c9_marshal_roundtrip_witness :
    (∀ arg ∈ [[116, 101, 115, 116, 255], [128]], ∀ b ∈ arg, b < 256) ∧
    (marshalArgv [[116, 101, 115, 116, 255], [128]]).map encodeLocaleSE =
      [[116, 101, 115, 116, 255], [128]] :=
  ⟨by decide, c9_marshal_roundtrip _ (by decide)⟩

/-- Claim C10: once the body of `_embed_sim_cleanup` has run, `pEventFn` is
NULL again, so a later `_embed_sim_init` does not take the already-started
early return (its trace is nonempty) and re-attempts the resolution
sequence, starting with the entry-module import, against the finalized
runtime. -/
theorem c10_cleanup_clears_started_guard (w : PyWorld) (s : BridgeState)
    (h : s.pyInitialized = true) :
    (_embed_sim_cleanup s).1.pEventFn = false ∧
    Action.importEntryModule ∈ (_embed_sim_init w (_embed_sim_cleanup s).1).2.2 ∧
    (_embed_sim_init w (_embed_sim_cleanup s).1).2.2 ≠ [] := by
  have h1 : (_embed_sim_cleanup s).1.pEventFn = false := by
    simp [_embed_sim_cleanup, h]
  have hi := sim_init_shape w _ h1
  exact ⟨h1, hi.2.2.2.1, hi.2.2.2.2⟩

theorem c10_cleanup_clears_started_guard_witness :
    bootedState.pyInitialized = true ∧
    ((_embed_sim_cleanup bootedState).1.pEventFn = false ∧
     Action.importEntryModule ∈
       (_embed_sim_init allOkWorld (_embed_sim_cleanup bootedState).1).2.2 ∧
     (_embed_sim_init allOkWorld (_embed_sim_cleanup bootedState).1).2.2 ≠ []) :=
  ⟨rfl, c10_cleanup_clears_started_guard allOkWorld bootedState rfl⟩

end GpiEmbed
